import Mathlib

/-!
Verification development for the `weblist` repository (`src/api.py`), a small
Flask front-end over the `pan123` cloud-storage SDK.  The Python code is
shallowly embedded below: the SDK (`Pan123`) is modelled as an opaque
`Backend` record of pure functions, the mutable `pan` object as an explicit
`Pan` state threaded through each operation, and the single global
non-reentrant `threading.Lock` as a Boolean `held` flag — a `with lock:`
block whose lock is already held blocks forever, which every operation
reports through a dedicated `blocked` result.
-/

set_option autoImplicit false

/-- One item of a backend directory listing, as the dict the SDK yields:
the keys `Type` (1 = folder), `FileName`, `FileId` and `Size` used by
`api.py`.  `Type` is a Lean keyword, so the field is spelled `EType`. -/
structure Entry where
  EType : Nat
  FileName : String
  FileId : Nat
  Size : Nat
deriving DecidableEq, Repr

/-- The mutable state of the `Pan123` client object `self.pan`:
credential fields, the current-directory cursor `parent_file_id`, and the
cached listing `pan.list` written by `get_dir()`. -/
structure Pan where
  user_name : String
  password : String
  authorization : String
  parent_file_id : Nat
  list : List Entry
deriving DecidableEq, Repr

/-- A scalar JSON value, as found in request bodies and the settings file.
Nested arrays/objects are not needed by any claim and are elided. -/
inductive JVal where
  | jstr : String → JVal
  | jnum : Int → JVal
  | jbool : Bool → JVal
  | jnull : JVal
deriving DecidableEq, Repr

/-- Outcome of the SDK call `pan.share(file_id)`: a JSON reply carrying a
`code` and `data.shareUrl`, or a raised exception with its message. -/
inductive ShareResp where
  | resp (code : Nat) (shareUrl : String)
  | raiseMsg (msg : String)
deriving DecidableEq, Repr

/-- The external `pan123` SDK, treated as a black box of pure functions:
`children d` is the listing that `get_dir()` fetches when
`parent_file_id = d`; `auth u p a` is the `(status code, issued token)`
outcome of `Pan123.login()`; `link d i` is `pan.link(i)` with the cursor at
`d`; `share v` is `pan.share(v)`. -/
structure Backend where
  children : Nat → List Entry
  auth : String → String → String → Nat × String
  link : Nat → Nat → String
  share : JVal → ShareResp

/-- Python `path.split("/")` on the character list: splits at every slash,
keeping empty pieces (so `""` splits to `[""]`). -/
def splitAux : List Char → List Char → List String
  | [], acc => [String.mk acc.reverse]
  | c :: cs, acc =>
    if c = '/' then String.mk acc.reverse :: splitAux cs []
    else splitAux cs (c :: acc)

/-- Python `path.split("/")`. -/
def pySplit (s : String) : List String :=
  splitAux s.data []

/-- The list comprehension `[p for p in path.split("/") if p]` used by
`list_folder`, `parsing` and `_validate_default_path`: split on `/` and
drop falsy (empty) segments. -/
def splitPath (s : String) : List String :=
  (pySplit s).filter (fun p => p != "")

/-- `Pan123API._find_folder_by_name` (api.py lines 71-79): sets the cursor
to `parent_id`, refetches the listing, and linearly scans it for the first
entry of folder type whose name equals `name` exactly.  Returns the match
(if any) together with the mutated `pan` state. -/
def find_folder_by_name (B : Backend) (st : Pan) (parent_id : Nat) (name : String) :
    Option Entry × Pan :=
  let st' := { st with parent_file_id := parent_id, list := B.children parent_id }
  (st'.list.find? (fun it => it.EType == 1 && it.FileName == name), st')

/-- The segment-walking loop shared by `list_folder` (lines 129-133),
`parsing` (lines 146-150) and `_validate_default_path` (lines 65-69):
starting from directory `cur`, look up each segment in turn via
`find_folder_by_name`, stopping at the first miss.  Besides the resolved
identifier (`none` = not found) and the mutated `pan` state, it returns the
ghost trace of directory ids whose listings were fetched from the backend,
one per `get_dir()` issued. -/
def resolveLoop (B : Backend) : Pan → Nat → List String → Option Nat × Pan × List Nat
  | st, cur, [] => (some cur, st, [])
  | st, cur, part :: rest =>
    match find_folder_by_name B st cur part with
    | (none, st') => (none, st', [cur])
    | (some e, st') =>
      match resolveLoop B st' e.FileId rest with
      | (r, st'', tr) => (r, st'', cur :: tr)

/-- Python `round(num / den, 2)` for nonnegative integers, modelled exactly:
the rational `num / den` rounded half-to-even to the nearest hundredth,
returned as a count of hundredths.  The quotient `q` and remainder `r` of
`100 * num` by `den` give the candidate and the tie test (`2 * r` against
`den`), ties going to the even candidate — exactly CPython's behaviour
here, since `num / den` with `den` a power of two is an exact binary float
for `num < 2 ^ 53` and `round(x, 2)` rounds the exact value half-to-even. -/
def roundCentsHalfEven (num den : Nat) : Nat :=
  let q := 100 * num / den
  let r := 100 * num % den
  if 2 * r < den then q
  else if den < 2 * r then q + 1
  else if q % 2 = 0 then q
  else q + 1

/-- Rendering of `round(num / den, 2)` inside an f-string, for nonnegative
arguments: round to two decimals (half to even) and print the float's
shortest decimal form — at least one fractional digit, a trailing zero in
the second decimal place dropped. -/
def fmt2 (num den : Nat) : String :=
  let n := roundCentsHalfEven num den
  let ip := n / 100
  let fr := n % 100
  toString ip ++ "." ++
    (if fr % 10 = 0 then toString (fr / 10)
     else if fr < 10 then "0" ++ toString fr
     else toString fr)

/-- `Pan123API._format_size` (api.py lines 90-99): strict `>` thresholds
selecting GB, MB, KB or plain bytes, the first three rendered via
`round(size / unit, 2)` in an f-string. -/
def format_size (size : Nat) : String :=
  if size > 1073741824 then fmt2 size 1073741824 ++ "GB"
  else if size > 1048576 then fmt2 size 1048576 ++ "MB"
  else if size > 1024 then fmt2 size 1024 ++ "KB"
  else toString size ++ "B"

/-- The `{"id", "name"}` dict built for a folder by `Pan123API.list`. -/
structure FolderItem where
  id : String
  name : String
deriving DecidableEq, Repr

/-- The `{"id", "name", "size"}` dict built for a file by `Pan123API.list`. -/
structure FileItem where
  id : String
  name : String
  size : String
deriving DecidableEq, Repr

/-- The `{"folder": [...], "file": [...]}` dict returned by `Pan123API.list`. -/
structure ListResult where
  folder : List FolderItem
  file : List FileItem
deriving DecidableEq, Repr

/-- The partitioning loop of `Pan123API.list` (lines 108-119): walk the raw
listing in order, appending folders (`Type == 1`) to one list and files to
the other, formatting file sizes. -/
def formatListing : List Entry → ListResult
  | [] => ⟨[], []⟩
  | it :: rest =>
    let r := formatListing rest
    if it.EType = 1 then ⟨⟨toString it.FileId, it.FileName⟩ :: r.folder, r.file⟩
    else ⟨r.folder, ⟨toString it.FileId, it.FileName, format_size it.Size⟩ :: r.file⟩

namespace Pan123API

/-- `Pan123API.list` (api.py lines 101-121): under the global lock, refetch
the current directory's listing and partition it.  `held` is the lock flag:
a call made while the lock is already held blocks forever (`none`). -/
def list (B : Backend) (held : Bool) (st : Pan) : Option (ListResult × Pan) :=
  if held then none
  else
    let st' := { st with list := B.children st.parent_file_id }
    some (formatListing st'.list, st')

/-- Result of `Pan123API.list_folder`: blocked on the lock forever, the
`{"error": ...}` dict, or a listing — each with the final `pan` state and
the ghost trace of directory ids listed. -/
inductive LFOut where
  | blocked
  | err (msg : String) (st : Pan) (tr : List Nat)
  | ok (r : ListResult) (st : Pan) (tr : List Nat)
deriving DecidableEq, Repr

/-- `Pan123API.list_folder` (api.py lines 123-137): under the global lock,
resolve the slash path from the current cursor; on a miss return the error
dict, otherwise move the cursor to the resolved folder, refetch, and call
`self.list()` — which tries to take the already-held non-reentrant lock. -/
def list_folder (B : Backend) (held : Bool) (st : Pan) (path : String) : LFOut :=
  if held then .blocked
  else
    match resolveLoop B st st.parent_file_id (splitPath path) with
    | (none, st', tr) => .err "没有找到对应文件夹或文件" st' tr
    | (some cid, st', tr) =>
      match list B true { st' with parent_file_id := cid, list := B.children cid } with
      | none => .blocked
      | some (r, st2) => .ok r st2 (tr ++ [cid])

/-- Result of `Pan123API.parsing`: blocked on the lock, a raised
`IndexError` (from `path_parts[-1]` on an empty list), or a returned
`{"url"}` / `{"error"}` dict — with final state and ghost listing trace. -/
inductive POut where
  | blocked
  | exn (st : Pan) (tr : List Nat)
  | ok (url : String) (st : Pan) (tr : List Nat)
  | err (msg : String) (st : Pan) (tr : List Nat)
deriving DecidableEq, Repr

/-- `Pan123API.parsing` (api.py lines 139-161): under the global lock,
resolve all but the last segment as folders, move the cursor there and
refetch, then take `path_parts[-1]` (an `IndexError` when there are no
segments) and scan the listing for the first non-folder entry with that
exact name, asking the backend for a link at its index. -/
def parsing (B : Backend) (held : Bool) (st : Pan) (path : String) : POut :=
  if held then .blocked
  else
    let parts := splitPath path
    match resolveLoop B st st.parent_file_id parts.dropLast with
    | (none, st', tr) => .err "没有找到对应文件夹或文件" st' tr
    | (some cid, st', tr) =>
      let st2 := { st' with parent_file_id := cid, list := B.children cid }
      match parts.getLast? with
      | none => .exn st2 (tr ++ [cid])
      | some fname =>
        match st2.list.findIdx? (fun it => !(it.EType == 1) && it.FileName == fname) with
        | some idx => .ok (B.link st2.parent_file_id idx) st2 (tr ++ [cid])
        | none => .err "没有找到对应文件" st2 (tr ++ [cid])

end Pan123API

/-- The four-field configuration document of `settings.json`, projected to
its string values as `login`/`_save_config` read them; `defaultPath`
models the `"default-path"` key. -/
structure Config where
  defaultPath : String
  user : String
  password : String
  authorization : String
deriving DecidableEq, Repr

/-- The `Pan123API` object's state as the session claims need it: the
in-memory `self.config`, the persisted `settings.json` document, and the
installed client handle `self.pan` (`none` before the first construction). -/
structure ApiState where
  config : Config
  persisted : Config
  pan : Option Pan
deriving DecidableEq, Repr

/-- Exceptions raised by the embedded code: the `login` failure carrying
the backend status code (api.py line 53), the invalid default path
(line 68), and the uncaught `TypeError` from `dict.update` on a
non-mapping (line 36). -/
inductive PyErr where
  | loginFailed (code : Nat)
  | invalidRoot
  | typeError
deriving DecidableEq, Repr

/-- The `Pan123(...)` construction of api.py lines 43-49: a fresh handle
built from the configured credentials, with the cursor at the root and no
cached listing (the external client's initial state). -/
def mkPan123 (c : Config) : Pan :=
  ⟨c.user, c.password, c.authorization, 0, []⟩

/-- `Pan123API._save_config` (api.py lines 81-88): copy the handle's
`user_name`, `password` and `authorization` into `self.config`, then
persist the document. -/
def save_config (s : ApiState) (p : Pan) : ApiState :=
  let cfg := { s.config with
                user := p.user_name, password := p.password,
                authorization := p.authorization }
  { s with config := cfg, persisted := cfg }

/-- `Pan123API._validate_default_path` (api.py lines 59-69): when
`default-path` is non-empty, walk its segments from the root (id 0) with
`_find_folder_by_name`, raising when any segment is missing.  Returns the
raised error (if any) and the mutated handle. -/
def validate_default_path (B : Backend) (cfg : Config) (p : Pan) : Option PyErr × Pan :=
  if cfg.defaultPath = "" then (none, p)
  else
    match resolveLoop B p 0 (splitPath cfg.defaultPath) with
    | (none, p', _) => (some .invalidRoot, p')
    | (some _, p', _) => (none, p')

/-- Outcome of `Pan123API.login`: blocked on the lock, an exception with
the state at the raise, or normal completion. -/
inductive LoginOut where
  | blocked
  | raised (e : PyErr) (s : ApiState)
  | ok (s : ApiState)
deriving DecidableEq, Repr

/-- `Pan123API.login` (api.py lines 40-57): under the global lock,
unconditionally install a freshly constructed handle, call the backend's
authentication, and on a non-200 code raise with that code — the fresh
handle stays installed.  On 200 the issued token is copied into the
config's `authorization`, the config is saved, and the default path is
validated.  The external `pan.login()` is modelled as `B.auth` returning
the status code and issued token; its effect on the handle's token field
on failure is unspecified and modelled as no change. -/
def login (B : Backend) (held : Bool) (s : ApiState) : LoginOut :=
  if held then .blocked
  else
    let p0 := mkPan123 s.config
    let ar := B.auth p0.user_name p0.password p0.authorization
    if ar.1 = 200 then
      let p1 := { p0 with authorization := ar.2 }
      let s1 := { s with pan := some p1,
                         config := { s.config with authorization := p1.authorization } }
      let s2 := save_config s1 p1
      match validate_default_path B s2.config p1 with
      | (some e, p2) => .raised e { s2 with pan := some p2 }
      | (none, p2) => .ok { s2 with pan := some p2 }
    else
      .raised (.loginFailed ar.1) { s with pan := some p0 }

/-- Lookup `d.get(k)` on the decoded JSON dict, modelled as an ordered
association list, first binding wins. -/
def dictGet (d : List (String × JVal)) (k : String) : Option JVal :=
  (d.find? (fun kv => kv.1 == k)).map (fun kv => kv.2)

/-- Assignment `d[k] = v` on a Python dict: overwrite in place when the
key exists, else append (insertion order preserved). -/
def dictSet : List (String × JVal) → String → JVal → List (String × JVal)
  | [], k, v => [(k, v)]
  | (k', v') :: rest, k, v =>
    if k' = k then (k, v) :: rest
    else (k', v') :: dictSet rest k v

/-- Python `d.update(u)` for a mapping `u`: assign each binding of `u` in
iteration order. -/
def dictUpdate (d : List (String × JVal)) (u : List (String × JVal)) :
    List (String × JVal) :=
  u.foldl (fun acc kv => dictSet acc kv.1 kv.2) d

/-- The default configuration dict of api.py lines 25-30. -/
def defaultConfigDict : List (String × JVal) :=
  [("default-path", .jstr ""), ("user", .jstr ""),
   ("password", .jstr ""), ("authorization", .jstr "")]

/-- Content of the settings file as `_load_config` can meet it: missing
file, text that raises `JSONDecodeError`, a decoded JSON object, or a
decoded non-object JSON value.  A number stands for the non-object case;
JSON arrays and strings engage `dict.update`'s pair-sequence protocol
instead and are not needed by the claims. -/
inductive FileContent where
  | absent
  | malformed
  | jsonObj (fields : List (String × JVal))
  | jsonNum (n : Int)
deriving DecidableEq, Repr

/-- Outcome of `_load_config`: the resulting config dict, or a raised
exception. -/
inductive LoadOut where
  | ok (cfg : List (String × JVal))
  | raised (e : PyErr)
deriving DecidableEq, Repr

/-- `Pan123API._load_config` (api.py lines 23-38): start from the default
dict; an absent file keeps it, a `json.JSONDecodeError` is swallowed
(`pass`), a decoded object is merged via `dict.update`, and a decoded
non-object reaches `dict.update` and raises an uncaught `TypeError`. -/
def load_config : FileContent → LoadOut
  | .absent => .ok defaultConfigDict
  | .malformed => .ok defaultConfigDict
  | .jsonObj fields => .ok (dictUpdate defaultConfigDict fields)
  | .jsonNum _ => .raised .typeError

/-- Python truthiness of the scalar JSON values (`if not file_id`). -/
def truthyV : JVal → Bool
  | .jstr s => s != ""
  | .jnum n => n != 0
  | .jbool b => b
  | .jnull => false

/-- Outcome of `Pan123API.share`: blocked on the lock, or the returned
`{"url"}` / `{"error"}` dict (exceptions from the SDK are caught inside
and reported as the error dict). -/
inductive ShareOut where
  | blocked
  | ok (url : String)
  | err (msg : String)
deriving DecidableEq, Repr

namespace Pan123API

/-- `Pan123API.share` (api.py lines 193-202): under the global lock, call
the SDK; a `code == 200` reply yields the share URL, any other reply the
fixed failure message, and a raised exception its message. -/
def share (B : Backend) (held : Bool) (file_id : JVal) : ShareOut :=
  if held then .blocked
  else
    match B.share file_id with
    | .resp 200 url => .ok url
    | .resp _ _ => .err "分享失败"
    | .raiseMsg m => .err m

end Pan123API

/-- A JSON response body of the share endpoint: `{"url": ...}` or
`{"error": ...}`. -/
inductive RespBody where
  | urlBody (url : String)
  | errBody (msg : String)
deriving DecidableEq, Repr

/-- The `POST /api/share` handler `share_file` (api.py lines 267-282):
read `file_id` from the JSON body; a missing or falsy value yields 400
with the error body before any backend work; otherwise call
`Pan123API.share` (lock free) and map its dict to 200 or 400.  The third
component records whether the backend was invoked. -/
def share_file (B : Backend) (data : List (String × JVal)) : Nat × RespBody × Bool :=
  match dictGet data "file_id" with
  | none => (400, .errBody "缺少file_id参数", false)
  | some v =>
    if truthyV v = false then (400, .errBody "缺少file_id参数", false)
    else
      match Pan123API.share B false v with
      | .ok url => (200, .urlBody url, true)
      | .err m => (400, .errBody m, true)
      | .blocked => (500, .errBody "", true)

/-- A small concrete backend for witnesses: the root (id 0) holds the
folder `a` (id 1), which holds the folder `b` (id 2); authentication
reports status 401 with token `tok`; the SDK share call raises. -/
def treeB : Backend :=
  { children := fun n =>
      if n = 0 then [⟨1, "a", 1, 0⟩]
      else if n = 1 then [⟨1, "b", 2, 0⟩]
      else []
    auth := fun _ _ _ => (401, "tok")
    link := fun _ _ => "L"
    share := fun _ => .raiseMsg "boom" }

/-- A client handle at the root with an empty cached listing. -/
def panStart : Pan := ⟨"", "", "", 0, []⟩

/-- An API state whose installed handle visibly differs from a handle
freshly constructed from the config (credentials and cursor differ). -/
def apiStateWithOldPan : ApiState :=
  { config := ⟨"", "u1", "p1", "a1"⟩
    persisted := ⟨"", "u1", "p1", "a1"⟩
    pan := some ⟨"u0", "p0", "a0", 7, []⟩ }

theorem resolveLoop_append_of_fail (B : Backend) (p : List String) :
    ∀ (st : Pan) (cur : Nat) (q : List String),
      (resolveLoop B st cur p).1 = none →
      resolveLoop B st cur (p ++ q) = resolveLoop B st cur p := by
  induction p with
  | nil =>
    intro st cur q h
    simp [resolveLoop] at h
  | cons part rest ih =>
    intro st cur q h
    rcases hf : find_folder_by_name B st cur part with ⟨fo, st'⟩
    cases fo with
    | none => simp [resolveLoop, hf]
    | some e =>
      rcases hr : resolveLoop B st' e.FileId rest with ⟨r, st'', tr⟩
      simp only [resolveLoop, hf, hr] at h
      subst h
      have h' : (resolveLoop B st' e.FileId rest).1 = none := by rw [hr]
      simp only [List.cons_append, resolveLoop, hf, List.append_eq,
        ih st' e.FileId q h', hr]

theorem resolveLoop_append_of_some (B : Backend) (p : List String) :
    ∀ (st : Pan) (cur : Nat) (q : List String) (d : Nat) (st' : Pan) (tr : List Nat),
      resolveLoop B st cur p = (some d, st', tr) →
      resolveLoop B st cur (p ++ q) =
        ((resolveLoop B st' d q).1, (resolveLoop B st' d q).2.1,
         tr ++ (resolveLoop B st' d q).2.2) := by
  induction p with
  | nil =>
    intro st cur q d st' tr h
    simp only [resolveLoop, Prod.mk.injEq, Option.some.injEq] at h
    obtain ⟨rfl, rfl, rfl⟩ := h
    rcases hq : resolveLoop B st cur q with ⟨r, s2, t2⟩
    simp [hq]
  | cons part rest ih =>
    intro st cur q d st' tr h
    rcases hf : find_folder_by_name B st cur part with ⟨fo, st1⟩
    cases fo with
    | none =>
      simp only [resolveLoop, hf, Prod.mk.injEq] at h
      exact absurd h.1 (by simp)
    | some e =>
      rcases hr : resolveLoop B st1 e.FileId rest with ⟨r, st2, tr2⟩
      simp only [resolveLoop, hf, hr, Prod.mk.injEq] at h
      obtain ⟨h1, h2, h3⟩ := h
      subst h2
      subst h3
      rw [h1] at hr
      simp only [List.cons_append, resolveLoop, hf, List.append_eq]
      rw [ih st1 e.FileId q d st2 tr2 hr]

theorem resolveLoop_indep_of_state (B : Backend) (parts : List String) :
    ∀ (st₁ st₂ : Pan) (cur : Nat),
      (resolveLoop B st₁ cur parts).1 = (resolveLoop B st₂ cur parts).1 ∧
      (resolveLoop B st₁ cur parts).2.2 = (resolveLoop B st₂ cur parts).2.2 := by
  induction parts with
  | nil => intro st₁ st₂ cur; simp [resolveLoop]
  | cons part rest ih =>
    intro st₁ st₂ cur
    simp only [resolveLoop, find_folder_by_name]
    cases hfind : (B.children cur).find? (fun it => it.EType == 1 && it.FileName == part) with
    | none => simp
    | some e =>
      dsimp only
      have h3 := ih { st₁ with parent_file_id := cur, list := B.children cur }
        { st₂ with parent_file_id := cur, list := B.children cur } e.FileId
      exact ⟨h3.1, by rw [h3.2]⟩

theorem resolveLoop_trace_length (B : Backend) (parts : List String) :
    ∀ (st : Pan) (cur : Nat), (resolveLoop B st cur parts).2.2.length ≤ parts.length := by
  induction parts with
  | nil => intro st cur; simp [resolveLoop]
  | cons part rest ih =>
    intro st cur
    rcases hf : find_folder_by_name B st cur part with ⟨fo, st'⟩
    cases fo with
    | none => simp [resolveLoop, hf]
    | some e =>
      rcases hr : resolveLoop B st' e.FileId rest with ⟨r, st'', tr⟩
      have := ih st' e.FileId
      rw [hr] at this
      simp only [resolveLoop, hf, hr]
      simpa using Nat.succ_le_succ this

theorem dropLast_append_left {α : Type} (p q : List α) (hq : q ≠ []) :
    (p ++ q).dropLast = p ++ q.dropLast := by
  induction p with
  | nil => simp
  | cons a p ih =>
    have hne : p ++ q ≠ [] := by
      intro hc
      exact hq (List.append_eq_nil.mp hc).2
    simp only [List.cons_append]
    rw [List.dropLast_cons_of_ne_nil hne, ih]

theorem dictGet_dictSet_ne (k k' : String) (v : JVal) (h : k' ≠ k) :
    ∀ d, dictGet (dictSet d k' v) k = dictGet d k := by
  intro d
  induction d with
  | nil => simp [dictSet, dictGet, h]
  | cons kv rest ih =>
    rcases kv with ⟨k0, v0⟩
    by_cases hk0 : k0 = k'
    · subst hk0
      simp only [dictSet, if_pos rfl]
      simp [dictGet, h, fun hc : k0 == k => h (by simpa using hc)]
    · simp only [dictSet, if_neg hk0]
      by_cases hk : k0 = k
      · subst hk
        simp [dictGet]
      · simp only [dictGet, List.find?] at ih ⊢
        have : (k0 == k) = false := by simpa using hk
        simp [this, ih]

theorem dictGet_dictUpdate_not_mem (u : List (String × JVal)) :
    ∀ (d : List (String × JVal)) (k : String),
      (∀ kv ∈ u, kv.1 ≠ k) →
      dictGet (dictUpdate d u) k = dictGet d k := by
  induction u with
  | nil => intro d k _; simp [dictUpdate]
  | cons kv rest ih =>
    intro d k h
    rcases kv with ⟨k', v⟩
    have hk' : k' ≠ k := h (k', v) (List.mem_cons_self _ _)
    have hrest : ∀ kv ∈ rest, kv.1 ≠ k := fun kv hm => h kv (List.mem_cons_of_mem _ hm)
    simp only [dictUpdate, List.foldl_cons]
    rw [show List.foldl (fun acc kv => dictSet acc kv.1 kv.2) (dictSet d k' v) rest =
          dictUpdate (dictSet d k' v) rest from rfl]
    rw [ih (dictSet d k' v) k hrest, dictGet_dictSet_ne k k' v hk']

/-- Claim C1: for every virtual path whose segments all resolve to folders,
`list_folder` acquires the single global non-reentrant lock and, on the
success path, calls `list()`, which attempts to acquire the same lock
again; so a successful sub-directory listing never terminates (`blocked`),
and only the not-found error path of `list_folder` returns. -/
theorem list_folder_success_never_returns (B : Backend) (st : Pan) (path : String) :
    (∀ d, (resolveLoop B st st.parent_file_id (splitPath path)).1 = some d →
       Pan123API.list_folder B false st path = .blocked) ∧
    ((resolveLoop B st st.parent_file_id (splitPath path)).1 = none →
       Pan123API.list_folder B false st path =
         .err "没有找到对应文件夹或文件"
           (resolveLoop B st st.parent_file_id (splitPath path)).2.1
           (resolveLoop B st st.parent_file_id (splitPath path)).2.2) := by
  rcases hR : resolveLoop B st st.parent_file_id (splitPath path) with ⟨r, st', tr⟩
  constructor
  · intro d hd
    dsimp only at hd
    subst hd
    simp [Pan123API.list_folder, Pan123API.list, hR]
  · intro h0
    dsimp only at h0
    subst h0
    simp [Pan123API.list_folder, hR]

/-- Witness for C1: on the concrete backend, the fully resolving path
`a/b` makes `list_folder` block forever. -/
theorem list_folder_success_never_returns_witness :
    Pan123API.list_folder treeB false panStart "a/b" = .blocked :=
  (list_folder_success_never_returns treeB panStart "a/b").1 2 (by decide)

/-- Counterexample to claim C4: on a fixed backend tree, resolving the
same virtual path `a/b` twice in succession (the second resolution starts
from the state the first left behind) yields the identifier 2 the first
time and not-found the second time. -/
theorem path_resolution_not_idempotent_cex :
    (resolveLoop treeB panStart panStart.parent_file_id ["a", "b"]).1 = some 2 ∧
    (resolveLoop treeB
        (resolveLoop treeB panStart panStart.parent_file_id ["a", "b"]).2.1
        (resolveLoop treeB panStart panStart.parent_file_id ["a", "b"]).2.1.parent_file_id
        ["a", "b"]).1 = none := by decide

/-- Claim C4 as amended: for a fixed backend tree, resolution is a
function of the starting directory identifier and the path alone — two
resolutions started at the same directory yield the same identifier,
whatever incidental handle state they start from.  Successive calls may
differ because resolution leaves the cursor at the last directory it
listed. -/
theorem path_resolution_function_of_start_dir (B : Backend) (st₁ st₂ : Pan)
    (cur : Nat) (parts : List String) :
    (resolveLoop B st₁ cur parts).1 = (resolveLoop B st₂ cur parts).1 :=
  (resolveLoop_indep_of_state B parts st₁ st₂ cur).1

/-- Counterexample to claim C5: on the empty virtual path `/` neither
resolver returns the starting directory — `list_folder` blocks forever
(re-acquiring the held lock in `list()`), and `parsing` raises an
`IndexError` taking `path_parts[-1]` of an empty list. -/
theorem empty_path_claim_cex :
    splitPath "/" = [] ∧
    Pan123API.list_folder treeB false panStart "/" = .blocked ∧
    Pan123API.parsing treeB false panStart "/" =
      .exn ⟨"", "", "", 0, [⟨1, "a", 1, 0⟩]⟩ [0] := by decide

/-- Claim C5 as amended: an empty-segment path consumes no segments, so
the resolution loop yields the starting directory unchanged in both
resolvers; but `list_folder` then blocks forever re-acquiring the global
lock inside `list()`, and `parsing` raises an `IndexError` extracting the
last segment of the empty list, so neither call returns normally. -/
theorem empty_path_resolves_to_start_then_blocks_or_raises
    (B : Backend) (st : Pan) (path : String) (h : splitPath path = []) :
    resolveLoop B st st.parent_file_id (splitPath path) =
      (some st.parent_file_id, st, []) ∧
    Pan123API.list_folder B false st path = .blocked ∧
    Pan123API.parsing B false st path =
      .exn { st with list := B.children st.parent_file_id } [st.parent_file_id] := by
  obtain ⟨u, pw, au, pf, l⟩ := st
  refine ⟨by rw [h]; rfl, ?_, ?_⟩
  · simp [Pan123API.list_folder, h, resolveLoop, Pan123API.list]
  · simp [Pan123API.parsing, h, resolveLoop]

/-- Witness for the amended C5 at the slashes-only path. -/
theorem empty_path_resolves_witness :
    Pan123API.parsing treeB false panStart "///" =
      .exn { panStart with list := treeB.children panStart.parent_file_id }
        [panStart.parent_file_id] :=
  (empty_path_resolves_to_start_then_blocks_or_raises treeB panStart "///" (by decide)).2.2

/-- Claim C6: the size formatter is a pure function with strict `>`
thresholds: `b ≤ 1024` renders as bytes (`1024` and `1023` included),
`1024 < b ≤ 1048576` renders in KB rounded to two decimals,
`1048576 < b ≤ 1073741824` in MB, and `b > 1073741824` in GB, with the
spec's five sample values. -/
theorem format_size_strict_thresholds :
    (∀ b : Nat,
      (b ≤ 1024 → format_size b = toString b ++ "B") ∧
      (1024 < b → b ≤ 1048576 → format_size b = fmt2 b 1024 ++ "KB") ∧
      (1048576 < b → b ≤ 1073741824 → format_size b = fmt2 b 1048576 ++ "MB") ∧
      (1073741824 < b → format_size b = fmt2 b 1073741824 ++ "GB")) ∧
    format_size 1023 = "1023B" ∧ format_size 1024 = "1024B" ∧
    format_size 1025 = "1.0KB" ∧ format_size 1048577 = "1.0MB" ∧
    format_size 1073741825 = "1.0GB" := by
  refine ⟨fun b => ⟨?_, ?_, ?_, ?_⟩, by decide, by decide, by decide, by decide, by decide⟩
  · intro h
    simp only [format_size]
    rw [if_neg (show ¬ b > 1073741824 by omega), if_neg (show ¬ b > 1048576 by omega),
      if_neg (show ¬ b > 1024 by omega)]
  · intro h1 h2
    simp only [format_size]
    rw [if_neg (show ¬ b > 1073741824 by omega), if_neg (show ¬ b > 1048576 by omega),
      if_pos (show b > 1024 by omega)]
  · intro h1 h2
    simp only [format_size]
    rw [if_neg (show ¬ b > 1073741824 by omega), if_pos (show b > 1048576 by omega)]
  · intro h
    simp only [format_size]
    rw [if_pos (show b > 1073741824 by omega)]

/-- Witness for C6 at `b = 1025`: strictly above the KB threshold, so the
KB branch applies. -/
theorem format_size_strict_thresholds_witness :
    format_size 1025 = fmt2 1025 1024 ++ "KB" :=
  (format_size_strict_thresholds.1 1025).2.1 (by decide) (by decide)

/-- Counterexample to claim C8: configuration loading can fail — a
settings file holding the valid JSON value `42` (not an object) reaches
`dict.update`, which raises an uncaught `TypeError`, preventing startup. -/
theorem load_config_never_fails_cex :
    load_config (.jsonNum 42) = .raised .typeError := rfl

/-- Claim C8 as amended: for an absent file, a file that fails JSON
decoding, or a decoded JSON object with any subset of keys, `_load_config`
succeeds, merging the parsed fields over the defaults, and every key not
present in the file keeps its default empty-string value; but a decoded
non-object JSON value raises an uncaught `TypeError` and does prevent
startup. -/
theorem load_config_object_inputs_ok (fields : List (String × JVal)) (k : String)
    (hk : ∀ kv ∈ fields, kv.1 ≠ k) :
    load_config .absent = .ok defaultConfigDict ∧
    load_config .malformed = .ok defaultConfigDict ∧
    load_config (.jsonObj fields) = .ok (dictUpdate defaultConfigDict fields) ∧
    dictGet (dictUpdate defaultConfigDict fields) k = dictGet defaultConfigDict k :=
  ⟨rfl, rfl, rfl, dictGet_dictUpdate_not_mem fields defaultConfigDict k hk⟩

/-- Witness for the amended C8: a partial file setting only `user` leaves
the `authorization` entry at its default. -/
theorem load_config_object_inputs_ok_witness :
    dictGet (dictUpdate defaultConfigDict [("user", JVal.jstr "bob")]) "authorization" =
      dictGet defaultConfigDict "authorization" :=
  (load_config_object_inputs_ok [("user", JVal.jstr "bob")] "authorization" (by decide)).2.2.2

/-- Claim C9: a `POST /api/share` body without the `file_id` field gets a
400 response with an error body, and the backend is never invoked. -/
theorem share_missing_file_id_is_400_no_backend (B : Backend)
    (data : List (String × JVal)) (h : dictGet data "file_id" = none) :
    share_file B data = (400, .errBody "缺少file_id参数", false) := by
  simp [share_file, h]

/-- Witness for C9 on a body holding only an unrelated key. -/
theorem share_missing_file_id_is_400_no_backend_witness :
    share_file treeB [("foo", JVal.jnum 1)] = (400, .errBody "缺少file_id参数", false) :=
  share_missing_file_id_is_400_no_backend treeB [("foo", JVal.jnum 1)] (by decide)

theorem login_fail_eq (B : Backend) (s : ApiState)
    (h : (B.auth s.config.user s.config.password s.config.authorization).1 ≠ 200) :
    login B false s =
      .raised (.loginFailed (B.auth s.config.user s.config.password s.config.authorization).1)
        { s with pan := some (mkPan123 s.config) } := by
  simp only [login, mkPan123, Bool.false_eq_true, if_false]
  rw [if_neg h]

/-- Counterexample to claim C2: a failed login does not leave the
previously installed handle in place — on a 401 from the backend, the
handle found afterwards is the one freshly constructed from the config
(cursor at root, config credentials), not the prior one (cursor 7,
credentials `u0`/`p0`/`a0`). -/
theorem login_failure_replaces_handle_cex :
    login treeB false apiStateWithOldPan =
      .raised (.loginFailed 401)
        { apiStateWithOldPan with pan := some (mkPan123 apiStateWithOldPan.config) } ∧
    some (mkPan123 apiStateWithOldPan.config) ≠ apiStateWithOldPan.pan := by
  exact ⟨by decide, by decide⟩

/-- Claim C2 as amended: when the backend authentication returns a non-200
status, `login` fails with an error carrying that status code, and
`self.pan` holds the freshly constructed unauthenticated handle built from
the current config — the previously installed handle is discarded, not
left in place. -/
theorem login_failure_installs_fresh_handle (B : Backend) (s : ApiState)
    (h : (B.auth s.config.user s.config.password s.config.authorization).1 ≠ 200) :
    login B false s =
      .raised (.loginFailed (B.auth s.config.user s.config.password s.config.authorization).1)
        { s with pan := some (mkPan123 s.config) } :=
  login_fail_eq B s h

/-- Witness for the amended C2 on the concrete 401 backend. -/
theorem login_failure_installs_fresh_handle_witness :
    login treeB false apiStateWithOldPan =
      .raised (.loginFailed (treeB.auth apiStateWithOldPan.config.user
          apiStateWithOldPan.config.password apiStateWithOldPan.config.authorization).1)
        { apiStateWithOldPan with pan := some (mkPan123 apiStateWithOldPan.config) } :=
  login_failure_installs_fresh_handle treeB apiStateWithOldPan (by decide)

/-- Claim C3: a login attempt in which the backend returns a non-200
status raises before the issued token is copied or the configuration is
saved, so both the in-memory and the persisted configuration — in
particular the persisted `authorization` token — keep the values they had
before the attempt. -/
theorem login_failure_keeps_persisted_authorization (B : Backend) (s : ApiState)
    (h : (B.auth s.config.user s.config.password s.config.authorization).1 ≠ 200) :
    login B false s =
      .raised (.loginFailed (B.auth s.config.user s.config.password s.config.authorization).1)
        { s with pan := some (mkPan123 s.config) } ∧
    (∀ e s', login B false s = .raised e s' →
       s'.config = s.config ∧ s'.persisted = s.persisted ∧
       s'.persisted.authorization = s.persisted.authorization) := by
  refine ⟨login_fail_eq B s h, ?_⟩
  intro e s' he
  rw [login_fail_eq B s h] at he
  simp only [LoginOut.raised.injEq] at he
  obtain ⟨-, he2⟩ := he
  subst he2
  exact ⟨rfl, rfl, rfl⟩

/-- Witness for C3 on the concrete 401 backend: the persisted
authorization of the state the failed login raises with stays `a1`. -/
theorem login_failure_keeps_persisted_authorization_witness :
    ({ apiStateWithOldPan with
        pan := some (mkPan123 apiStateWithOldPan.config) } : ApiState).persisted.authorization =
      apiStateWithOldPan.persisted.authorization :=
  ((login_failure_keeps_persisted_authorization treeB apiStateWithOldPan (by decide)).2
      (.loginFailed 401)
      { apiStateWithOldPan with pan := some (mkPan123 apiStateWithOldPan.config) }
      (by decide)).2.2

/-- Claim C7: when a segment of a virtual path fails to match a folder
child by exact case-sensitive name, resolution fails immediately with the
not-found outcome and issues no backend listing call for any later
segment: extending a failing prefix `p` by any further segments `q`
changes neither the outcome nor the listing trace, the trace stays within
the first `p.length` segments, and both `list_folder` and `parsing` (the
latter when the failing segment is not the last) return the error carrying
exactly the failing prefix's state and trace. -/
theorem resolution_stops_at_first_missing_segment (B : Backend) (st : Pan)
    (p q : List String)
    (h : (resolveLoop B st st.parent_file_id p).1 = none) :
    resolveLoop B st st.parent_file_id (p ++ q) = resolveLoop B st st.parent_file_id p ∧
    (resolveLoop B st st.parent_file_id p).2.2.length ≤ p.length ∧
    (∀ path, splitPath path = p ++ q →
       Pan123API.list_folder B false st path =
         Pan123API.LFOut.err "没有找到对应文件夹或文件"
           (resolveLoop B st st.parent_file_id p).2.1
           (resolveLoop B st st.parent_file_id p).2.2) ∧
    (∀ path, splitPath path = p ++ q → q ≠ [] →
       Pan123API.parsing B false st path =
         Pan123API.POut.err "没有找到对应文件夹或文件"
           (resolveLoop B st st.parent_file_id p).2.1
           (resolveLoop B st st.parent_file_id p).2.2) := by
  have happ := resolveLoop_append_of_fail B p st st.parent_file_id q h
  refine ⟨happ, resolveLoop_trace_length B p st st.parent_file_id, ?_, ?_⟩
  · intro path hpath
    rcases hR : resolveLoop B st st.parent_file_id p with ⟨r, st', tr⟩
    rw [hR] at h
    dsimp only at h
    subst h
    rw [hR] at happ
    simp only [Pan123API.list_folder, hpath, happ, Bool.false_eq_true, if_false]
  · intro path hpath hq
    have hdl : (splitPath path).dropLast = p ++ q.dropLast := by
      rw [hpath]
      exact dropLast_append_left p q hq
    have happ2 := resolveLoop_append_of_fail B p st st.parent_file_id q.dropLast h
    rcases hR : resolveLoop B st st.parent_file_id p with ⟨r, st', tr⟩
    rw [hR] at h
    dsimp only at h
    subst h
    rw [hR] at happ2
    simp only [Pan123API.parsing, hdl, happ2, Bool.false_eq_true, if_false]

/-- Witness for C7: in the concrete tree, the three-segment path `a/x/c`
whose second segment is absent fails with the not-found error after
listing only directories 0 and 1, never examining the third segment. -/
theorem resolution_stops_witness :
    Pan123API.list_folder treeB false panStart "a/x/c" =
      Pan123API.LFOut.err "没有找到对应文件夹或文件"
        (resolveLoop treeB panStart panStart.parent_file_id ["a", "x"]).2.1
        (resolveLoop treeB panStart panStart.parent_file_id ["a", "x"]).2.2 :=
  ((resolution_stops_at_first_missing_segment treeB panStart ["a", "x"] ["c"]
      (by decide)).2.2.1) "a/x/c" (by decide)

/-- Claim C10: when `list_folder` or `parsing` fails with not-found at
segment `k` of a virtual path, the session cursor `pan.parent_file_id` is
left at the directory reached after segment `k - 1` (the parent that was
listed for the failing lookup) rather than being restored, so a subsequent
`list()` (GET /api/list, lock free) reflects that intermediate directory. -/
theorem failed_resolution_leaves_cursor_at_intermediate_dir
    (B : Backend) (st : Pan) (pre : List String) (bad : String) (rest : List String)
    (d : Nat)
    (hpre : (resolveLoop B st st.parent_file_id pre).1 = some d)
    (hbad : (B.children d).find? (fun it => it.EType == 1 && it.FileName == bad) = none) :
    (resolveLoop B st st.parent_file_id (pre ++ bad :: rest)).1 = none ∧
    (resolveLoop B st st.parent_file_id (pre ++ bad :: rest)).2.1.parent_file_id = d ∧
    (∀ path, splitPath path = pre ++ bad :: rest →
       Pan123API.list_folder B false st path =
         Pan123API.LFOut.err "没有找到对应文件夹或文件"
           (resolveLoop B st st.parent_file_id (pre ++ bad :: rest)).2.1
           (resolveLoop B st st.parent_file_id (pre ++ bad :: rest)).2.2) ∧
    Pan123API.list B false (resolveLoop B st st.parent_file_id (pre ++ bad :: rest)).2.1 =
      some (formatListing (B.children d),
        { (resolveLoop B st st.parent_file_id (pre ++ bad :: rest)).2.1
            with list := B.children d }) := by
  rcases hR : resolveLoop B st st.parent_file_id pre with ⟨r, st', tr⟩
  rw [hR] at hpre
  dsimp only at hpre
  subst hpre
  have hstep : resolveLoop B st' d (bad :: rest) =
      (none, { st' with parent_file_id := d, list := B.children d }, [d]) := by
    simp [resolveLoop, find_folder_by_name, hbad]
  have hfull : resolveLoop B st st.parent_file_id (pre ++ bad :: rest) =
      (none, { st' with parent_file_id := d, list := B.children d }, tr ++ [d]) := by
    rw [resolveLoop_append_of_some B pre st st.parent_file_id (bad :: rest) d st' tr hR,
      hstep]
  refine ⟨by rw [hfull], by rw [hfull], ?_, ?_⟩
  · intro path hpath
    simp only [Pan123API.list_folder, hpath, hfull, Bool.false_eq_true, if_false]
  · rw [hfull]
    simp [Pan123API.list]

/-- Witness for C10: failing at the second segment of `a/x/z` leaves the
cursor at directory 1 (reached after segment 1), not at the starting
directory 0. -/
theorem failed_resolution_cursor_witness :
    (resolveLoop treeB panStart panStart.parent_file_id (["a"] ++ "x" :: ["z"])).2.1.parent_file_id = 1 :=
  (failed_resolution_leaves_cursor_at_intermediate_dir treeB panStart ["a"] "x" ["z"] 1
      (by decide) (by decide)).2.1
